import Mathlib

/-!
Verification of the secure authentication and session subsystem of the
Oneverter repository, as a shallow embedding in Lean 4.

The embedding translates the Python source under src/utils into Lean:

* src/utils/security/encryption.py   (EncryptionManager, SecureStorage)
* src/utils/security/audit_logger.py (AuditLogger)
* src/utils/auth/rate_limiter.py     (RateLimiter)
* src/utils/auth/password_service.py (PasswordService password history)
* src/utils/auth/jwt_manager.py      (JWTManager)
* src/utils/secure_session_manager.py (SecureSessionManager)
* src/utils/secure_user_manager.py   (SecureUserManager.login)

Modelling conventions:
* Timestamps (time.time, datetime isoformat strings) are integers counting
  seconds.  The source compares such values with the usual order, which the
  integer order mirrors.
* Python dicts keyed by strings become either total functions with a default
  (for collections.defaultdict) or insertion-ordered association lists (for
  plain dicts whose iteration order matters).
* External libraries (Fernet, bcrypt, PyJWT, email-validator) are modelled by
  small executable stand-ins that expose exactly the behaviour the source
  relies on; each stand-in is documented at its definition.
-/

/-- Pointwise update of a string-keyed map represented as a function, the
counterpart of `d[k] = v` on a Python dict or defaultdict. -/
def mapUpd {α : Type} (f : String → α) (k : String) (v : α) : String → α :=
  fun x => if x = k then v else f x

@[simp] theorem mapUpd_same {α : Type} (f : String → α) (k : String) (v : α) :
    mapUpd f k v k = v := by
  simp [mapUpd]

theorem mapUpd_ne {α : Type} (f : String → α) (k x : String) (v : α)
    (h : x ≠ k) : mapUpd f k v x = f x := by
  simp [mapUpd, h]

/- ---------------------------------------------------------------------
Encrypted Store: src/utils/security/encryption.py
--------------------------------------------------------------------- -/

/-- A dictionary persisted by SecureStorage; the empty list models the empty
Python dict. -/
abbrev StoredDict := List (String × Int)

/-- Model of a ciphertext produced by the external `cryptography.fernet`
library: an authenticated token carrying the encrypted payload and a MAC tag.
Tampering with either component breaks authentication. -/
structure FernetToken where
  payload : StoredDict
  tag : Nat
deriving DecidableEq, Repr

/-- Model of the Fernet MAC over the serialized payload: a keyed iterated
checksum.  It is injective in the key for a fixed payload, which mirrors the
wrong-key rejection of real Fernet. -/
def fernetMac (key : Nat) (payload : StoredDict) : Nat :=
  payload.foldl (fun a kv => a * 257 + kv.2.natAbs + kv.1.length + 1) (key + 1)

/-- Model of `Fernet.encrypt`: attach the MAC tag. -/
def fernetEncrypt (key : Nat) (payload : StoredDict) : FernetToken :=
  ⟨payload, fernetMac key payload⟩

/-- Model of `Fernet.decrypt`: verify the MAC tag, returning `none` where the
library raises `InvalidToken` (tampered ciphertext or wrong key). -/
def fernetDecrypt (key : Nat) (tok : FernetToken) : Option StoredDict :=
  if tok.tag = fernetMac key tok.payload then some tok.payload else none

/-- `EncryptionManager.encrypt_dict` (encryption.py lines 118-133): serialize
and encrypt.  Serialization is the identity in the model since `StoredDict`
already is the dictionary. -/
def encrypt_dict (key : Nat) (d : StoredDict) : FernetToken :=
  fernetEncrypt key d

/-- `EncryptionManager.decrypt_dict` (encryption.py lines 135-150): decrypt
and deserialize; any failure is re-raised to the caller, modelled by
`Except.error`. -/
def decrypt_dict (key : Nat) (tok : FernetToken) : Except String StoredDict :=
  match fernetDecrypt key tok with
  | some d => Except.ok d
  | none => Except.error ("decryption failed")

/-- `SecureStorage.load` (encryption.py lines 288-311).  The backing file is
`none` when it does not exist.  The function returns the empty dict when the
file is missing, and — through the catch-all `except` clause at lines 309-311,
which logs the error — also returns the empty dict when `decrypt_dict`
raises.  The return type records that no exception escapes. -/
def secure_storage_load (key : Nat) (file : Option FernetToken) : StoredDict :=
  match file with
  | none => []
  | some tok =>
    match decrypt_dict key tok with
    | Except.ok d => d
    | Except.error _ => []

/- ---------------------------------------------------------------------
Rate Limiter: src/utils/auth/rate_limiter.py
--------------------------------------------------------------------- -/

/-- Constructor arguments of `RateLimiter.__init__` (rate_limiter.py lines
32-55). -/
structure RateLimiterConfig where
  loginAttemptsPerWindow : Nat
  loginWindowMinutes : Nat
  lockoutDurationMinutes : Nat
  maxLockoutDurationHours : Nat
  oauthAttemptsPerWindow : Nat
  oauthWindowMinutes : Nat
deriving Repr

/-- The default constructor arguments (T = 5 failures, W = 15 minutes,
30-minute base lockout, 24-hour cap). -/
def defaultRateLimiterConfig : RateLimiterConfig :=
  ⟨5, 15, 30, 24, 10, 5⟩

/-- The mutable state of a `RateLimiter` (rate_limiter.py lines 57-61):
per-user timestamp deques, per-user consecutive-failure counters, and the
lockout table mapping a user to its `locked_until` timestamp. -/
structure RateLimiterState where
  loginAttempts : String → List Int
  oauthAttempts : String → List Int
  failedAttempts : String → Nat
  lockouts : String → Option Int

/-- Result triple of the check functions: (is_allowed, reason_if_blocked,
retry_after_seconds). -/
structure RateCheckResult where
  allowed : Bool
  reason : Option String
  retryAfter : Option Int
deriving DecidableEq, Repr

/-- The lockout message of rate_limiter.py line 173. -/
def lockedMessage : String :=
  "Account temporarily locked due to too many failed attempts"

/-- The sliding-window message of rate_limiter.py line 190, which interpolates
the retry time in minutes. -/
def tooManyMessage (retryAfter : Int) : String :=
  "Too many login attempts. Try again in " ++ toString (retryAfter.fdiv 60 + 1)
    ++ " minutes"

/-- The sliding-window part of `RateLimiter.check_login_rate_limit`
(rate_limiter.py lines 179-192): prune entries older than the window from the
front of the deque, then compare the count with the limit. -/
def check_login_window (cfg : RateLimiterConfig) (now : Int) (user : String)
    (st : RateLimiterState) : RateCheckResult × RateLimiterState :=
  let cutoff : Int := now - cfg.loginWindowMinutes * 60
  let pruned := (st.loginAttempts user).dropWhile (fun t => t < cutoff)
  let st1 := { st with loginAttempts := mapUpd st.loginAttempts user pruned }
  if cfg.loginAttemptsPerWindow ≤ pruned.length then
    let retryAfter : Int :=
      cfg.loginWindowMinutes * 60 - (now - pruned.headD now)
    (⟨false, some (tooManyMessage retryAfter), some retryAfter⟩, st1)
  else
    (⟨true, none, none⟩, st1)

/-- `RateLimiter.check_login_rate_limit` (rate_limiter.py lines 154-192):
check the lockout table first — deleting an expired lockout and resetting the
failure counter — then the sliding window. -/
def check_login_rate_limit (cfg : RateLimiterConfig) (now : Int)
    (user : String) (st : RateLimiterState) :
    RateCheckResult × RateLimiterState :=
  match st.lockouts user with
  | some lockoutUntil =>
    if now < lockoutUntil then
      (⟨false, some lockedMessage, some (lockoutUntil - now)⟩, st)
    else
      check_login_window cfg now user
        { st with lockouts := mapUpd st.lockouts user none,
                  failedAttempts := mapUpd st.failedAttempts user 0 }
  | none => check_login_window cfg now user st

/-- `RateLimiter.record_login_attempt` (rate_limiter.py lines 194-241): the
timestamp is appended unconditionally; success resets the failure counter and
removes any lockout; failure increments the counter and, at or above the
threshold, stores a lockout with exponential backoff capped at
`max_lockout_duration_hours`. -/
def record_login_attempt (cfg : RateLimiterConfig) (now : Int) (user : String)
    (success : Bool) (st : RateLimiterState) : RateLimiterState :=
  let st1 := { st with
    loginAttempts := mapUpd st.loginAttempts user (st.loginAttempts user ++ [now]) }
  if success then
    { st1 with failedAttempts := mapUpd st1.failedAttempts user 0,
               lockouts := mapUpd st1.lockouts user none }
  else
    let failedCount := st1.failedAttempts user + 1
    let st2 := { st1 with
      failedAttempts := mapUpd st1.failedAttempts user failedCount }
    if cfg.loginAttemptsPerWindow ≤ failedCount then
      let lockoutMinutes : Nat :=
        min (cfg.lockoutDurationMinutes *
              2 ^ (failedCount - cfg.loginAttemptsPerWindow))
            (cfg.maxLockoutDurationHours * 60)
      let lockedUntil : Int := now + lockoutMinutes * 60
      { st2 with lockouts := mapUpd st2.lockouts user (some lockedUntil) }
    else st2

/-- `RateLimiter.is_user_locked_out` (rate_limiter.py lines 282-305): reports
the lockout status; an expired lockout is removed and the failure counter
reset as a side effect. -/
def is_user_locked_out (now : Int) (user : String) (st : RateLimiterState) :
    (Bool × Option Int) × RateLimiterState :=
  match st.lockouts user with
  | some lockoutUntil =>
    if now < lockoutUntil then
      ((true, some (lockoutUntil - now)), st)
    else
      ((false, none),
       { st with lockouts := mapUpd st.lockouts user none,
                 failedAttempts := mapUpd st.failedAttempts user 0 })
  | none => ((false, none), st)

/- ---------------------------------------------------------------------
Audit Log: src/utils/security/audit_logger.py
--------------------------------------------------------------------- -/

/-- One audit record as assembled by `AuditLogger.log_event` (audit_logger.py
lines 182-194).  The uuid4 event id is modelled by a counter value. -/
structure AuditEvent where
  eventId : Nat
  timestamp : Int
  eventType : String
  severity : String
  success : Bool
  userEmail : Option String
  ipAddress : Option String
  userAgent : Option String
  details : List (String × String)
deriving DecidableEq, Repr

/-- The mutable state of an `AuditLogger` (audit_logger.py lines 62-94): the
in-memory event list, the constructor limits, and the counter modelling uuid4
generation. -/
structure AuditLoggerState where
  events : List AuditEvent
  maxEvents : Nat
  retentionDays : Nat
  nextEventId : Nat

/-- `AuditLogger._cleanup_old_events` (audit_logger.py lines 138-154): return
unchanged when retention is disabled, otherwise keep only the events strictly
newer than the retention cutoff. -/
def cleanup_old_events (now : Int) (st : AuditLoggerState) : AuditLoggerState :=
  if st.retentionDays = 0 then st
  else
    let cutoff : Int := now - st.retentionDays * 24 * 3600
    { st with events := st.events.filter (fun e => cutoff < e.timestamp) }

/-- `AuditLogger.log_event` (audit_logger.py lines 156-219): append the new
record, then — still inside the call — truncate to the newest `max_events`
records when over the cap, and run `_cleanup_old_events` whenever the
resulting count is a multiple of 100.  Returns the new state and the event
id. -/
def log_event (now : Int) (eventType severity : String) (success : Bool)
    (userEmail ipAddress userAgent : Option String)
    (details : List (String × String)) (st : AuditLoggerState) :
    AuditLoggerState × Nat :=
  let eid := st.nextEventId
  let e : AuditEvent :=
    ⟨eid, now, eventType, severity, success, userEmail, ipAddress, userAgent,
     details⟩
  let events1 := st.events ++ [e]
  let events2 :=
    if st.maxEvents < events1.length then
      events1.drop (events1.length - st.maxEvents)
    else events1
  let st1 := { st with events := events2, nextEventId := eid + 1 }
  let st2 :=
    if st1.events.length % 100 = 0 then cleanup_old_events now st1 else st1
  (st2, eid)

/- ---------------------------------------------------------------------
Credential Policy Engine (password history):
src/utils/auth/password_service.py
--------------------------------------------------------------------- -/

/-- Model of the external bcrypt library used by
`PasswordService.hash_password` (password_service.py lines 255-267): hashing
is modelled as injective tagging, so that `verify_password p (hash_password q)`
holds exactly when `p = q`, which is the behaviour of salted bcrypt up to hash
collisions. -/
def hash_password (p : String) : String :=
  "bcrypt$" ++ p

/-- Model of `PasswordService.verify_password` (password_service.py lines
269-284), backed by `bcrypt.checkpw`. -/
def verify_password (p h : String) : Bool :=
  h == hash_password p

/-- The per-user password history of a `PasswordService`
(password_service.py lines 64-66): a map from user email to the ordered list
of prior hashes, plus the `history_count` bound. -/
structure PasswordHistoryState where
  history : String → List String
  historyCount : Nat

/-- `PasswordService.check_password_history` (password_service.py lines
286-303): returns true (password acceptable) exactly when the new password
verifies against none of the stored hashes. -/
def check_password_history (st : PasswordHistoryState) (user newPassword : String) :
    Bool :=
  (st.history user).all (fun oldHash => ! verify_password newPassword oldHash)

/-- `PasswordService.add_to_password_history` (password_service.py lines
305-323): append the hash; when the list exceeds `history_count`, pop the
oldest entry from the front. -/
def add_to_password_history (st : PasswordHistoryState) (user passwordHash : String) :
    PasswordHistoryState :=
  let h1 := st.history user ++ [passwordHash]
  let h2 := if st.historyCount < h1.length then h1.drop 1 else h1
  { st with history := mapUpd st.history user h2 }

/- ---------------------------------------------------------------------
Token Service: src/utils/auth/jwt_manager.py
--------------------------------------------------------------------- -/

/-- The claim set of a token as built by `JWTManager.create_access_token` and
`create_refresh_token` (jwt_manager.py lines 113-160).  `typ` is the source's
`type` claim. -/
structure JWTPayload where
  sub : String
  name : Option String
  iat : Int
  exp : Int
  iss : String
  typ : String
  jti : String
deriving DecidableEq, Repr

/-- Model of an encoded token of the external PyJWT library: the claim set
together with the secret it was signed with.  `jwt.decode` under secret `s`
succeeds exactly when the token was signed with `s`. -/
structure JWTToken where
  payload : JWTPayload
  signedWith : String
deriving DecidableEq, Repr

/-- The state of a `JWTManager` (jwt_manager.py lines 33-55): the signing
secret and issuer, the configured expirations, the blacklist set (modelled as
a duplicate-free list), and a counter modelling `secrets.token_urlsafe`
generation of fresh `jti` values. -/
structure JWTManagerState where
  secret : String
  issuer : String
  accessExpireMinutes : Nat
  refreshExpireDays : Nat
  blacklist : List String
  nonce : Nat
deriving Repr

/-- The fresh token id drawn from the nonce source (models
`secrets.token_urlsafe(16)`). -/
def mkJti (n : Nat) : String :=
  "jti-" ++ toString n

/-- Model of `jwt.decode` from PyJWT as called by the source: checks the
signature, then the `exp` claim unless `verify_exp` is disabled (a token is
expired once `exp ≤ now`), then the `iss` claim when an issuer is supplied. -/
def jwt_decode (secret issuer : String) (now : Int) (tok : JWTToken)
    (verifyExp verifyIss : Bool) : Option JWTPayload :=
  if tok.signedWith ≠ secret then none
  else if verifyExp && decide (tok.payload.exp ≤ now) then none
  else if verifyIss && decide (tok.payload.iss ≠ issuer) then none
  else some tok.payload

/-- `JWTManager.create_access_token` (jwt_manager.py lines 113-136). -/
def create_access_token (st : JWTManagerState) (now : Int) (email : String)
    (name : Option String) : JWTToken × JWTManagerState :=
  (⟨⟨email, name, now, now + st.accessExpireMinutes * 60, st.issuer,
     "access", mkJti st.nonce⟩, st.secret⟩,
   { st with nonce := st.nonce + 1 })

/-- `JWTManager.create_refresh_token` (jwt_manager.py lines 138-160); refresh
payloads carry no `name` claim. -/
def create_refresh_token (st : JWTManagerState) (now : Int) (email : String) :
    JWTToken × JWTManagerState :=
  (⟨⟨email, none, now, now + st.refreshExpireDays * 86400, st.issuer,
     "refresh", mkJti st.nonce⟩, st.secret⟩,
   { st with nonce := st.nonce + 1 })

/-- `JWTManager.create_token_pair` (jwt_manager.py lines 162-175). -/
def create_token_pair (st : JWTManagerState) (now : Int) (email : String)
    (name : Option String) : (JWTToken × JWTToken) × JWTManagerState :=
  let (accessToken, st1) := create_access_token st now email name
  let (refreshToken, st2) := create_refresh_token st1 now email
  ((accessToken, refreshToken), st2)

/-- `JWTManager.verify_token` (jwt_manager.py lines 177-214): decode with
signature, expiry and issuer checks, then reject on a `type` mismatch or on a
blacklisted (truthy) `jti`; every failure is the soft result `none`. -/
def verify_token (st : JWTManagerState) (now : Int) (tok : JWTToken)
    (tokenType : String) : Option JWTPayload :=
  match jwt_decode st.secret st.issuer now tok true true with
  | none => none
  | some payload =>
    if payload.typ ≠ tokenType then none
    else if payload.jti ≠ "" && st.blacklist.contains payload.jti then none
    else some payload

/-- `JWTManager.blacklist_token` (jwt_manager.py lines 238-260): decode
ignoring expiry (and without an issuer check), and add a truthy `jti` to the
blacklist set; an undecodable token is ignored. -/
def blacklist_token (st : JWTManagerState) (now : Int) (tok : JWTToken) :
    JWTManagerState :=
  match jwt_decode st.secret st.issuer now tok false false with
  | none => st
  | some payload =>
    if payload.jti ≠ "" then
      if st.blacklist.contains payload.jti then st
      else { st with blacklist := st.blacklist ++ [payload.jti] }
    else st

/-- Iterated re-blacklisting of the same token, used to state that revocation
survives any number of further `blacklist_token` calls. -/
def blacklist_iter (now : Int) (tok : JWTToken) (st : JWTManagerState) :
    Nat → JWTManagerState
  | 0 => st
  | n + 1 => blacklist_token (blacklist_iter now tok st n) now tok

/- ---------------------------------------------------------------------
Session Manager: src/utils/secure_session_manager.py
--------------------------------------------------------------------- -/

/-- Lookup in an insertion-ordered dict modelled as an association list
(Python `d.get(k)`). -/
def dictGet {α : Type} (l : List (String × α)) (k : String) : Option α :=
  (l.find? (fun p => p.1 == k)).map Prod.snd

/-- Assignment `d[k] = v` on an insertion-ordered dict: overwrite in place
when the key exists, append otherwise. -/
def dictSet {α : Type} (l : List (String × α)) (k : String) (v : α) :
    List (String × α) :=
  if (dictGet l k).isSome then
    l.map (fun p => if p.1 = k then (k, v) else p)
  else l ++ [(k, v)]

/-- Stable insertion of one element into a list sorted by `le`; ties keep the
inserted element first, matching the stability of Python `sorted`. -/
def insertSortedBy {α : Type} (le : α → α → Bool) (x : α) :
    List α → List α
  | [] => [x]
  | y :: ys => if le x y then x :: y :: ys else y :: insertSortedBy le x ys

/-- Stable insertion sort, modelling Python `sorted(l, key=...)` (and, with
the reversed comparator, `sort(reverse=True)`). -/
def sortListBy {α : Type} (le : α → α → Bool) (l : List α) : List α :=
  l.foldr (insertSortedBy le) []

/-- One session record as assembled by `SecureSessionManager.create_session`
(secure_session_manager.py lines 100-116), together with the invalidation
fields written by `_invalidate_session` (lines 305-308).  `device_info` and
`login_method`, which no operation reads, are omitted. -/
structure SessionRecord where
  sessionId : String
  userEmail : String
  userName : Option String
  accessToken : JWTToken
  refreshToken : JWTToken
  createdAt : Int
  expiresAt : Int
  lastActivity : Int
  rememberMe : Bool
  ipAddress : Option String
  userAgent : Option String
  isActive : Bool
  invalidatedAt : Option Int
  invalidationReason : Option String
deriving DecidableEq, Repr

/-- The state of a `SecureSessionManager` (secure_session_manager.py lines
31-61): configuration, the owned `JWTManager` and `AuditLogger`, the session
dict in insertion order, and a counter modelling `secrets.token_urlsafe(32)`
session-id generation. -/
structure SessionManagerState where
  defaultTimeoutMinutes : Nat
  rememberMeDays : Nat
  maxSessionsPerUser : Nat
  jwt : JWTManagerState
  audit : AuditLoggerState
  sessions : List (String × SessionRecord)
  sessionNonce : Nat

/-- The fresh session id drawn from the nonce source. -/
def mkSessionId (n : Nat) : String :=
  "sess-" ++ toString n

/-- `SecureSessionManager.get_user_sessions` (secure_session_manager.py lines
366-406): the user's (active) sessions in insertion order, sorted by
`last_activity`, most recent first.  The source projects each record to a
reduced dict without the tokens; the projection keeps `session_id` and
`last_activity`, the only fields later consumers read, so the model returns
the full records. -/
def get_user_sessions (st : SessionManagerState) (userEmail : String)
    (activeOnly : Bool) : List SessionRecord :=
  let filtered := (st.sessions.map Prod.snd).filter
    (fun s => s.userEmail == userEmail && (!activeOnly || s.isActive))
  sortListBy (fun a b => b.lastActivity ≤ a.lastActivity) filtered

/-- `SecureSessionManager._invalidate_session` (secure_session_manager.py
lines 291-332): blacklist the session's access token, mark the record
inactive with the reason, and log the invalidation. -/
def invalidate_session (now : Int) (sessionId reason : String)
    (ipAddress : Option String) (st : SessionManagerState) :
    SessionManagerState :=
  match dictGet st.sessions sessionId with
  | none => st
  | some sess =>
    let jwt1 := blacklist_token st.jwt now sess.accessToken
    let sess1 := { sess with
      isActive := false,
      invalidatedAt := some now,
      invalidationReason := some reason }
    let sessions1 := dictSet st.sessions sessionId sess1
    let eventType :=
      if reason == "user_logout" then "logout" else "session_expired"
    let (audit1, _) := log_event now eventType ("low") true
      (some sess.userEmail) ipAddress none
      [("session_id", sessionId), ("reason", reason)] st.audit
    { st with jwt := jwt1, sessions := sessions1, audit := audit1 }

/-- `SecureSessionManager._enforce_session_limit` (secure_session_manager.py
lines 408-424): when the user's active-session count reaches the limit,
invalidate the least-recently-active sessions, enough of them that the count
drops to the limit minus one. -/
def enforce_session_limit (now : Int) (userEmail : String)
    (st : SessionManagerState) : SessionManagerState :=
  let userSessions := get_user_sessions st userEmail true
  if st.maxSessionsPerUser ≤ userSessions.length then
    let sessionsToRemove := userSessions.length - st.maxSessionsPerUser + 1
    let oldestSessions :=
      sortListBy (fun a b => a.lastActivity ≤ b.lastActivity) userSessions
    (oldestSessions.take sessionsToRemove).foldl
      (fun s sess =>
        invalidate_session now sess.sessionId ("session_limit_exceeded") none s)
      st
  else st

/-- `SecureSessionManager.create_session` (secure_session_manager.py lines
63-156): enforce the concurrency limit, mint a token pair, build and store
the session record, and log the creation.  Returns (session_id, access token,
refresh token, expires_at) and the new state. -/
def create_session (now : Int) (userEmail : String) (userName : Option String)
    (rememberMe : Bool) (ipAddress userAgent : Option String)
    (st : SessionManagerState) :
    (String × JWTToken × JWTToken × Int) × SessionManagerState :=
  let st1 := enforce_session_limit now userEmail st
  let ((accessToken, refreshToken), jwt1) :=
    create_token_pair st1.jwt now userEmail userName
  let sessionId := mkSessionId st1.sessionNonce
  let expiresAt : Int :=
    if rememberMe then now + st1.rememberMeDays * 86400
    else now + st1.defaultTimeoutMinutes * 60
  let sess : SessionRecord :=
    ⟨sessionId, userEmail, userName, accessToken, refreshToken, now,
     expiresAt, now, rememberMe, ipAddress, userAgent, true, none, none⟩
  let st2 := { st1 with
    jwt := jwt1,
    sessions := dictSet st1.sessions sessionId sess,
    sessionNonce := st1.sessionNonce + 1 }
  let (audit1, _) := log_event now ("login_success") ("low") true
    (some userEmail) ipAddress userAgent
    [("session_id", sessionId), ("remember_me", toString rememberMe),
     ("expires_at", toString expiresAt)] st2.audit
  ((sessionId, accessToken, refreshToken, expiresAt),
   { st2 with audit := audit1 })

/- ---------------------------------------------------------------------
Account Service: src/utils/secure_user_manager.py (login pipeline)
--------------------------------------------------------------------- -/

/-- `AuditLogger.log_login_success` (audit_logger.py lines 236-246). -/
def log_login_success (now : Int) (userEmail : String)
    (ipAddress userAgent : Option String) (method : String)
    (st : AuditLoggerState) : AuditLoggerState × Nat :=
  log_event now ("login_success") ("low") true (some userEmail) ipAddress
    userAgent [("method", method)] st

/-- `AuditLogger.log_login_failure` (audit_logger.py lines 248-258). -/
def log_login_failure (now : Int) (userEmail : String)
    (ipAddress userAgent : Option String) (reason : String)
    (st : AuditLoggerState) : AuditLoggerState × Nat :=
  log_event now ("login_failure") ("medium") false (some userEmail) ipAddress
    userAgent [("reason", reason)] st

/-- `AuditLogger.log_account_locked` (audit_logger.py lines 281-290). -/
def log_account_locked (now : Int) (userEmail : String)
    (ipAddress : Option String) (reason : String) (st : AuditLoggerState) :
    AuditLoggerState × Nat :=
  log_event now ("account_locked") ("high") false (some userEmail) ipAddress
    none [("reason", reason)] st

/-- `AuditLogger.log_rate_limit_exceeded` (audit_logger.py lines 307-316). -/
def log_rate_limit_exceeded (now : Int) (userEmail : Option String)
    (ipAddress : Option String) (limitType : String) (st : AuditLoggerState) :
    AuditLoggerState × Nat :=
  log_event now ("rate_limit_exceeded") ("medium") false userEmail ipAddress
    none [("limit_type", limitType)] st

/-- The `security` sub-dict of a stored user record (secure_user_manager.py
lines 128-133). -/
structure UserSecurity where
  passwordChangedAt : Int
  failedLoginAttempts : Nat
  accountLocked : Bool
  lockedUntil : Option Int
deriving DecidableEq, Repr

/-- The `profile` sub-dict of a stored user record (secure_user_manager.py
lines 121-127). -/
structure UserProfile where
  name : String
  createdAt : Int
  emailVerified : Bool
  lastLogin : Option Int
  loginCount : Nat
deriving DecidableEq, Repr

/-- One stored user record (secure_user_manager.py lines 118-138). -/
structure UserRecord where
  email : String
  passwordHash : String
  profile : UserProfile
  security : UserSecurity
deriving DecidableEq, Repr

/-- One session record as stored by `SecureUserManager.login`
(secure_user_manager.py lines 286-295). -/
structure UMSession where
  userEmail : String
  accessToken : JWTToken
  refreshToken : JWTToken
  createdAt : Int
  ipAddress : Option String
  userAgent : Option String
  rememberMe : Bool
  lastActivity : Int
deriving DecidableEq, Repr

/-- The state of a `SecureUserManager` (secure_user_manager.py lines 35-55):
the user table, the owned rate limiter, audit logger and JWT manager, the
session store, a counter modelling `secrets.token_urlsafe(32)` session ids,
and the current-user fields. -/
structure SecureUserManagerState where
  users : String → Option UserRecord
  rateLimiter : RateLimiterState
  audit : AuditLoggerState
  jwt : JWTManagerState
  sessions : List (String × UMSession)
  sessionNonce : Nat
  currentUser : Option UserProfile
  currentSession : Option UMSession

/-- The (success, message, tokens) result of `SecureUserManager.login`; the
tokens dict carries (access_token, refresh_token, session_id). -/
structure LoginResult where
  success : Bool
  message : String
  tokens : Option (JWTToken × JWTToken × String)
deriving DecidableEq, Repr

/-- `SecureUserManager.login` (secure_user_manager.py lines 170-336).
`validateEmail` models `InputValidator.validate_email` (validators.py lines
49-81), which delegates to the external email-validator library: `some ne`
stands for the source's `(True, normalized_email, None)` and `none` for a
validation failure. -/
def login (validateEmail : String → Option String) (now : Int)
    (email password : String) (rememberMe : Bool)
    (ipAddress userAgent : Option String) (st : SecureUserManagerState) :
    LoginResult × SecureUserManagerState :=
  match validateEmail email with
  | none => (⟨false, "Invalid email format", none⟩, st)
  | some ne =>
    let (check, rl1) :=
      check_login_rate_limit defaultRateLimiterConfig now ne st.rateLimiter
    let st1 := { st with rateLimiter := rl1 }
    if !check.allowed then
      let (audit1, _) :=
        log_rate_limit_exceeded now (some ne) ipAddress ("login") st1.audit
      (⟨false, check.reason.getD (""), none⟩, { st1 with audit := audit1 })
    else
      match st1.users ne with
      | none =>
        let rl2 :=
          record_login_attempt defaultRateLimiterConfig now ne false
            st1.rateLimiter
        let (audit1, _) :=
          log_login_failure now ne ipAddress userAgent ("user_not_found")
            st1.audit
        (⟨false, "Invalid email or password", none⟩,
         { st1 with rateLimiter := rl2, audit := audit1 })
      | some userData0 =>
        let lockedEarly : Bool :=
          userData0.security.accountLocked &&
            (match userData0.security.lockedUntil with
             | some lockedUntil => decide (now < lockedUntil)
             | none => false)
        if lockedEarly then
          let (audit1, _) :=
            log_event now ("permission_denied") ("high") false (some ne)
              ipAddress none [("reason", "account_locked")] st1.audit
          (⟨false, "Account is temporarily locked. Please try again later.",
            none⟩,
           { st1 with audit := audit1 })
        else
          let userData1 :=
            if userData0.security.accountLocked then
              match userData0.security.lockedUntil with
              | some _ =>
                { userData0 with security := { userData0.security with
                    accountLocked := false, lockedUntil := none,
                    failedLoginAttempts := 0 } }
              | none => userData0
            else userData0
          if !(verify_password password userData1.passwordHash) then
            let rl2 :=
              record_login_attempt defaultRateLimiterConfig now ne false
                st1.rateLimiter
            let failedNew := userData1.security.failedLoginAttempts + 1
            let userData2 := { userData1 with
              security := { userData1.security with
                failedLoginAttempts := failedNew } }
            let lockNow : Bool := decide (5 ≤ failedNew)
            let userData3 :=
              if lockNow then
                { userData2 with security := { userData2.security with
                    accountLocked := true,
                    lockedUntil := some (now + 30 * 2 ^ (failedNew - 5) * 60) } }
              else userData2
            let audit1 :=
              if lockNow then
                (log_account_locked now ne ipAddress
                  ("too_many_failed_attempts_" ++ toString failedNew)
                  st1.audit).1
              else st1.audit
            let (audit2, _) :=
              log_login_failure now ne ipAddress userAgent
                ("invalid_password") audit1
            (⟨false, "Invalid email or password", none⟩,
             { st1 with users := mapUpd st1.users ne (some userData3),
                        rateLimiter := rl2, audit := audit2 })
          else
            let userData2 := { userData1 with
              security := { userData1.security with
                failedLoginAttempts := 0, accountLocked := false,
                lockedUntil := none },
              profile := { userData1.profile with
                lastLogin := some now,
                loginCount := userData1.profile.loginCount + 1 } }
            let ((accessToken, refreshToken), jwt1) :=
              create_token_pair st1.jwt now ne (some userData2.profile.name)
            let sessionId := "usess-" ++ toString st1.sessionNonce
            let sessionData : UMSession :=
              ⟨ne, accessToken, refreshToken, now, ipAddress, userAgent,
               rememberMe, now⟩
            let sessions1 := dictSet st1.sessions sessionId sessionData
            let rl2 :=
              record_login_attempt defaultRateLimiterConfig now ne true
                st1.rateLimiter
            let (audit1, _) :=
              log_login_success now ne ipAddress userAgent ("password")
                st1.audit
            (⟨true, "Welcome, " ++ userData2.profile.name ++ "!",
              some (accessToken, refreshToken, sessionId)⟩,
             { st1 with users := mapUpd st1.users ne (some userData2),
                        jwt := jwt1, sessions := sessions1,
                        sessionNonce := st1.sessionNonce + 1,
                        rateLimiter := rl2, audit := audit1,
                        currentUser := some userData2.profile,
                        currentSession := some sessionData })

/- ---------------------------------------------------------------------
Supporting lemmas
--------------------------------------------------------------------- -/

/-- `log_event` never changes the `max_events` configuration. -/
theorem log_event_maxEvents (now : Int) (ty sev : String) (succ : Bool)
    (ue ip ua : Option String) (det : List (String × String))
    (st : AuditLoggerState) :
    (log_event now ty sev succ ue ip ua det st).1.maxEvents = st.maxEvents := by
  unfold log_event cleanup_old_events
  dsimp only []
  repeat' split
  all_goals rfl

/-- `cleanup_old_events` keeps a trailing record whose timestamp is the
current time: the retention cutoff lies strictly in the past. -/
theorem cleanup_keeps_fresh (now : Int) (st : AuditLoggerState)
    (pre : List AuditEvent) (e : AuditEvent)
    (hst : st.events = pre ++ [e]) (hts : e.timestamp = now) :
    ∃ pre2, (cleanup_old_events now st).events = pre2 ++ [e] := by
  unfold cleanup_old_events
  split
  · exact ⟨pre, hst⟩
  · rename_i hret
    refine ⟨pre.filter
      (fun ev => decide (now - st.retentionDays * 24 * 3600 < ev.timestamp)),
      ?_⟩
    dsimp only []
    rw [hst, List.filter_append]
    have hkeep : now - (st.retentionDays : Int) * 24 * 3600 < e.timestamp := by
      have h1 : 1 ≤ st.retentionDays := Nat.one_le_iff_ne_zero.mpr hret
      have h2 : (1 : Int) ≤ (st.retentionDays : Int) := by exact_mod_cast h1
      have h3 : (3600 : Int) ≤ (st.retentionDays : Int) * 24 * 3600 := by
        nlinarith
      omega
    simp [hkeep]

/-- As long as the event cap is positive, a `log_event` call leaves the new
record as the final element of the event list: truncation drops only from the
front, and the every-100th-call retention purge keeps the new record because
its timestamp is `now`, strictly after the cutoff. -/
theorem log_event_suffix (now : Int) (ty sev : String) (succ : Bool)
    (ue ip ua : Option String) (det : List (String × String))
    (st : AuditLoggerState) (hmax : 0 < st.maxEvents) :
    ∃ pre, (log_event now ty sev succ ue ip ua det st).1.events =
      pre ++ [⟨st.nextEventId, now, ty, sev, succ, ue, ip, ua, det⟩] := by
  unfold log_event
  dsimp only []
  have hsuffix : ∃ pre,
      (if st.maxEvents <
          (st.events ++
            [(⟨st.nextEventId, now, ty, sev, succ, ue, ip, ua, det⟩ :
              AuditEvent)]).length then
        (st.events ++
          [(⟨st.nextEventId, now, ty, sev, succ, ue, ip, ua, det⟩ :
            AuditEvent)]).drop
          ((st.events ++
            [(⟨st.nextEventId, now, ty, sev, succ, ue, ip, ua, det⟩ :
              AuditEvent)]).length - st.maxEvents)
      else st.events ++
        [(⟨st.nextEventId, now, ty, sev, succ, ue, ip, ua, det⟩ :
          AuditEvent)]) =
      pre ++ [⟨st.nextEventId, now, ty, sev, succ, ue, ip, ua, det⟩] := by
    split
    · rw [List.drop_append_of_le_length
        (by simp only [List.length_append, List.length_cons,
          List.length_nil]; omega)]
      exact ⟨_, rfl⟩
    · exact ⟨st.events, rfl⟩
  obtain ⟨pre, hpre⟩ := hsuffix
  rw [hpre]
  split
  · exact cleanup_keeps_fresh now _ pre _ rfl rfl
  · exact ⟨pre, rfl⟩

/- ---------------------------------------------------------------------
C1
--------------------------------------------------------------------- -/

/-- C1, amended: for every namespace whose stored ciphertext fails to
decrypt (tampered ciphertext or wrong key), `SecureStorage.load` does not
raise a StorageCorrupted error — no such error exists in the code — but
catches the failure and silently returns the empty dict. -/
theorem C1_load_returns_empty_on_decrypt_failure (key : Nat)
    (tok : FernetToken) (h : fernetDecrypt key tok = none) :
    secure_storage_load key (some tok) = [] := by
  simp [secure_storage_load, decrypt_dict, h]

/-- C1 witness: a concrete token whose tag fails authentication makes `load`
return the empty dict. -/
theorem C1_load_returns_empty_on_decrypt_failure_witness :
    fernetDecrypt 7 ⟨[("a", 1)], 0⟩ = none ∧
    secure_storage_load 7 (some ⟨[("a", 1)], 0⟩) = [] :=
  ⟨by decide,
   C1_load_returns_empty_on_decrypt_failure 7 ⟨[("a", 1)], 0⟩ (by decide)⟩

/-- C1 counterexample: tampering the honestly encrypted ciphertext of the
dict mapping a to 1 under key 7 (incrementing its tag) makes decryption
fail, yet `secure_storage_load` silently returns the empty dict rather than
raising: the catch-all except clause at encryption.py lines 309-311 swallows
the failure and no StorageCorrupted error exists anywhere in the code. -/
theorem C1_counterexample :
    (⟨(encrypt_dict 7 [("a", 1)]).payload, (encrypt_dict 7 [("a", 1)]).tag + 1⟩ :
        FernetToken) ≠ encrypt_dict 7 [("a", 1)] ∧
    fernetDecrypt 7
      ⟨(encrypt_dict 7 [("a", 1)]).payload,
       (encrypt_dict 7 [("a", 1)]).tag + 1⟩ = none ∧
    secure_storage_load 7
      (some ⟨(encrypt_dict 7 [("a", 1)]).payload,
             (encrypt_dict 7 [("a", 1)]).tag + 1⟩) = [] := by
  decide

/- ---------------------------------------------------------------------
C2
--------------------------------------------------------------------- -/

/-- C2, amended: a `log_event` call appends exactly one new record and
removes no existing event, provided the post-append count stays within
`max_events` and is not a multiple of 100; in the remaining cases the call
itself synchronously drops the oldest records over the cap or purges records
older than the retention window. -/
theorem C2_log_event_appends (now : Int) (ty sev : String) (succ : Bool)
    (ue ip ua : Option String) (det : List (String × String))
    (st : AuditLoggerState)
    (hcap : st.events.length + 1 ≤ st.maxEvents)
    (hmod : (st.events.length + 1) % 100 ≠ 0) :
    (log_event now ty sev succ ue ip ua det st).1.events =
      st.events ++ [⟨st.nextEventId, now, ty, sev, succ, ue, ip, ua, det⟩] := by
  unfold log_event
  dsimp only []
  split
  · rename_i h
    exfalso
    simp only [List.length_append, List.length_cons, List.length_nil] at h
    omega
  · split
    · rename_i h
      exfalso
      simp only [List.length_append, List.length_cons, List.length_nil] at h
      omega
    · rfl

/-- C2 witness: on an audit state with room and an off-multiple count, one
call appends the single new record. -/
theorem C2_log_event_appends_witness :
    (log_event 5 ("a") ("b") true none none none []
        ⟨[], 10000, 90, 0⟩).1.events =
      [] ++ [⟨0, 5, "a", "b", true, none, none, none, []⟩] :=
  C2_log_event_appends 5 ("a") ("b") true none none none []
    ⟨[], 10000, 90, 0⟩ (by decide) (by decide)

/-- C2 counterexample: from a state holding 99 events one of which is older
than the 90-day retention window, a single `log_event` call — the hot path —
synchronously removes that old event, because `log_event` itself runs
`_cleanup_old_events` whenever the post-append count is a multiple of 100
(audit_logger.py lines 207-209). -/
theorem C2_counterexample :
    (⟨0, 0, "a", "b", true, none, none, none, []⟩ : AuditEvent) ∈
      (⟨(⟨0, 0, "a", "b", true, none, none, none, []⟩ : AuditEvent) ::
          List.replicate 98 ⟨1, 7776000, "a", "b", true, none, none, none, []⟩,
        10000, 90, 99⟩ : AuditLoggerState).events ∧
    (⟨0, 0, "a", "b", true, none, none, none, []⟩ : AuditEvent) ∉
      (log_event 7776001 ("a") ("b") true none none none []
        ⟨(⟨0, 0, "a", "b", true, none, none, none, []⟩ : AuditEvent) ::
          List.replicate 98 ⟨1, 7776000, "a", "b", true, none, none, none, []⟩,
         10000, 90, 99⟩).1.events := by
  constructor
  · exact List.mem_cons_self _ _
  · decide

/- ---------------------------------------------------------------------
C3
--------------------------------------------------------------------- -/

/-- C3: from the Open state (no lockout, zero failure counter) with the
default threshold T = 5 and window W = 15 min, recording five failed attempts
within the window locks the identity until 1800 seconds after the fifth
failure, and a sixth `check_login_rate_limit` call during the lockout returns
allowed = false with the lockout reason and a positive retry-after. -/
theorem C3_lockout_threshold (user : String) (st : RateLimiterState)
    (t1 t2 t3 t4 t5 t6 : Int)
    (hopen1 : st.lockouts user = none)
    (hopen2 : st.failedAttempts user = 0)
    (h12 : t1 ≤ t2) (h23 : t2 ≤ t3) (h34 : t3 ≤ t4) (h45 : t4 ≤ t5)
    (hwin : t5 ≤ t1 + 900)
    (h56 : t5 ≤ t6) (h6 : t6 < t5 + 1800) :
    ((record_login_attempt defaultRateLimiterConfig t5 user false
      (record_login_attempt defaultRateLimiterConfig t4 user false
        (record_login_attempt defaultRateLimiterConfig t3 user false
          (record_login_attempt defaultRateLimiterConfig t2 user false
            (record_login_attempt defaultRateLimiterConfig t1 user false
              st))))).lockouts user = some (t5 + 1800)) ∧
    (check_login_rate_limit defaultRateLimiterConfig t6 user
      (record_login_attempt defaultRateLimiterConfig t5 user false
        (record_login_attempt defaultRateLimiterConfig t4 user false
          (record_login_attempt defaultRateLimiterConfig t3 user false
            (record_login_attempt defaultRateLimiterConfig t2 user false
              (record_login_attempt defaultRateLimiterConfig t1 user false
                st)))))).1 =
      ⟨false, some lockedMessage, some (t5 + 1800 - t6)⟩ ∧
    0 < t5 + 1800 - t6 := by
  have hlock : (record_login_attempt defaultRateLimiterConfig t5 user false
      (record_login_attempt defaultRateLimiterConfig t4 user false
        (record_login_attempt defaultRateLimiterConfig t3 user false
          (record_login_attempt defaultRateLimiterConfig t2 user false
            (record_login_attempt defaultRateLimiterConfig t1 user false
              st))))).lockouts user = some (t5 + 1800) := by
    simp only [record_login_attempt, defaultRateLimiterConfig, hopen2,
      mapUpd_same, Bool.false_eq_true, if_false]
    norm_num
  refine ⟨hlock, ?_, by omega⟩
  simp only [check_login_rate_limit, hlock]
  rw [if_pos h6]

/-- C3 witness: the concrete run with five failures at times 1..5 and the
sixth check at time 5 on a fresh limiter state. -/
theorem C3_lockout_threshold_witness :
    ((record_login_attempt defaultRateLimiterConfig 5 ("a@b.c") false
      (record_login_attempt defaultRateLimiterConfig 4 ("a@b.c") false
        (record_login_attempt defaultRateLimiterConfig 3 ("a@b.c") false
          (record_login_attempt defaultRateLimiterConfig 2 ("a@b.c") false
            (record_login_attempt defaultRateLimiterConfig 1 ("a@b.c") false
              ⟨fun _ => [], fun _ => [], fun _ => 0,
               fun _ => none⟩))))).lockouts ("a@b.c") = some (5 + 1800)) ∧
    (check_login_rate_limit defaultRateLimiterConfig 5 ("a@b.c")
      (record_login_attempt defaultRateLimiterConfig 5 ("a@b.c") false
        (record_login_attempt defaultRateLimiterConfig 4 ("a@b.c") false
          (record_login_attempt defaultRateLimiterConfig 3 ("a@b.c") false
            (record_login_attempt defaultRateLimiterConfig 2 ("a@b.c") false
              (record_login_attempt defaultRateLimiterConfig 1 ("a@b.c") false
                ⟨fun _ => [], fun _ => [], fun _ => 0,
                 fun _ => none⟩)))))).1 =
      ⟨false, some lockedMessage, some (5 + 1800 - 5)⟩ ∧
    0 < (5 : Int) + 1800 - 5 :=
  C3_lockout_threshold ("a@b.c")
    ⟨fun _ => [], fun _ => [], fun _ => 0, fun _ => none⟩
    1 2 3 4 5 5 rfl rfl (by norm_num) (by norm_num) (by norm_num)
    (by norm_num) (by norm_num) (by norm_num) (by norm_num)

/- ---------------------------------------------------------------------
C4
--------------------------------------------------------------------- -/

/-- C4 counterexample: for the identity u at x dot com whose lockout expired
at time 100 with 5 recorded failures, the operation
`record_login_attempt` at time 200 — which observes the identity's counter —
does not reset `failed_attempts` to zero and does not remove the lockout: it
increments the stale counter to 6 and overwrites the lockout with a longer
one (until 200 + 3600), refuting the claim that every subsequent operation
observing the identity performs the expiry reset. -/
theorem C4_counterexample :
    (100 : Int) ≤ 200 ∧
    (record_login_attempt defaultRateLimiterConfig 200 ("u@x.com") false
      ⟨fun _ => [], fun _ => [],
       fun u => if u = "u@x.com" then 5 else 0,
       fun u => if u = "u@x.com" then some 100 else none⟩).failedAttempts
      ("u@x.com") = 6 ∧
    (record_login_attempt defaultRateLimiterConfig 200 ("u@x.com") false
      ⟨fun _ => [], fun _ => [],
       fun u => if u = "u@x.com" then 5 else 0,
       fun u => if u = "u@x.com" then some 100 else none⟩).lockouts
      ("u@x.com") = some 3800 := by
  refine ⟨by norm_num, ?_, ?_⟩ <;> decide

/-- C4, amended: a successful `record_login_attempt` always resets
`failed_attempts` to zero and removes any lockout, regardless of state; and
once a lockout's `locked_until` has passed, the lockout-checking operations —
`check_login_rate_limit` and `is_user_locked_out` — reset `failed_attempts`
to zero and remove the lockout.  (`record_login_attempt` itself performs no
expiry reset: a failure recorded after expiry increments the stale counter,
see the counterexample.) -/
theorem C4_reset_on_success_and_expiry (cfg : RateLimiterConfig) (now : Int)
    (user : String) (st : RateLimiterState) (lockedUntil : Int) :
    ((record_login_attempt cfg now user true st).failedAttempts user = 0 ∧
     (record_login_attempt cfg now user true st).lockouts user = none) ∧
    (st.lockouts user = some lockedUntil → lockedUntil ≤ now →
      ((check_login_rate_limit cfg now user st).2.failedAttempts user = 0 ∧
       (check_login_rate_limit cfg now user st).2.lockouts user = none)) ∧
    (st.lockouts user = some lockedUntil → lockedUntil ≤ now →
      ((is_user_locked_out now user st).2.failedAttempts user = 0 ∧
       (is_user_locked_out now user st).2.lockouts user = none)) := by
  refine ⟨⟨?_, ?_⟩, ?_, ?_⟩
  · simp [record_login_attempt]
  · simp [record_login_attempt]
  · intro hlk hexp
    simp only [check_login_rate_limit, hlk]
    rw [if_neg (by omega)]
    unfold check_login_window
    dsimp only []
    split <;> simp
  · intro hlk hexp
    simp only [is_user_locked_out, hlk]
    rw [if_neg (by omega)]
    simp

/-- C4 witness: the amended behaviour at a concrete state whose lockout
expired at time 100, checked and recorded at time 200. -/
theorem C4_reset_on_success_and_expiry_witness :
    ((record_login_attempt defaultRateLimiterConfig 200 ("u@x.com") true
      ⟨fun _ => [], fun _ => [],
       fun u => if u = "u@x.com" then 5 else 0,
       fun u => if u = "u@x.com" then some 100 else none⟩).failedAttempts
        ("u@x.com") = 0 ∧
     (record_login_attempt defaultRateLimiterConfig 200 ("u@x.com") true
      ⟨fun _ => [], fun _ => [],
       fun u => if u = "u@x.com" then 5 else 0,
       fun u => if u = "u@x.com" then some 100 else none⟩).lockouts
        ("u@x.com") = none) ∧
    ((check_login_rate_limit defaultRateLimiterConfig 200 ("u@x.com")
      ⟨fun _ => [], fun _ => [],
       fun u => if u = "u@x.com" then 5 else 0,
       fun u => if u = "u@x.com" then some 100 else none⟩).2.failedAttempts
        ("u@x.com") = 0 ∧
     (check_login_rate_limit defaultRateLimiterConfig 200 ("u@x.com")
      ⟨fun _ => [], fun _ => [],
       fun u => if u = "u@x.com" then 5 else 0,
       fun u => if u = "u@x.com" then some 100 else none⟩).2.lockouts
        ("u@x.com") = none) ∧
    ((is_user_locked_out 200 ("u@x.com")
      ⟨fun _ => [], fun _ => [],
       fun u => if u = "u@x.com" then 5 else 0,
       fun u => if u = "u@x.com" then some 100 else none⟩).2.failedAttempts
        ("u@x.com") = 0 ∧
     (is_user_locked_out 200 ("u@x.com")
      ⟨fun _ => [], fun _ => [],
       fun u => if u = "u@x.com" then 5 else 0,
       fun u => if u = "u@x.com" then some 100 else none⟩).2.lockouts
        ("u@x.com") = none) := by
  have h := C4_reset_on_success_and_expiry defaultRateLimiterConfig 200
    ("u@x.com")
    ⟨fun _ => [], fun _ => [],
     fun u => if u = "u@x.com" then 5 else 0,
     fun u => if u = "u@x.com" then some 100 else none⟩ 100
  exact ⟨h.1, h.2.1 (by decide) (by norm_num), h.2.2 (by decide) (by norm_num)⟩

/- ---------------------------------------------------------------------
C10
--------------------------------------------------------------------- -/

/-- C10: the sliding window counts successes and failures alike.  After five
successful attempts recorded within the 15-minute window for an identity with
no prior attempts, the failure counter is 0 and no lockout is set, yet the
next `check_login_rate_limit` call returns allowed = false with the
too-many-attempts reason and a positive retry-after. -/
theorem C10_successes_fill_window (user : String) (st : RateLimiterState)
    (t1 t2 t3 t4 t5 now : Int)
    (hfresh : st.loginAttempts user = [])
    (h12 : t1 ≤ t2) (h23 : t2 ≤ t3) (h34 : t3 ≤ t4) (h45 : t4 ≤ t5)
    (h5n : t5 ≤ now)
    (hwin : now - 900 < t1) :
    ((record_login_attempt defaultRateLimiterConfig t5 user true
      (record_login_attempt defaultRateLimiterConfig t4 user true
        (record_login_attempt defaultRateLimiterConfig t3 user true
          (record_login_attempt defaultRateLimiterConfig t2 user true
            (record_login_attempt defaultRateLimiterConfig t1 user true
              st))))).failedAttempts user = 0) ∧
    ((record_login_attempt defaultRateLimiterConfig t5 user true
      (record_login_attempt defaultRateLimiterConfig t4 user true
        (record_login_attempt defaultRateLimiterConfig t3 user true
          (record_login_attempt defaultRateLimiterConfig t2 user true
            (record_login_attempt defaultRateLimiterConfig t1 user true
              st))))).lockouts user = none) ∧
    (check_login_rate_limit defaultRateLimiterConfig now user
      (record_login_attempt defaultRateLimiterConfig t5 user true
        (record_login_attempt defaultRateLimiterConfig t4 user true
          (record_login_attempt defaultRateLimiterConfig t3 user true
            (record_login_attempt defaultRateLimiterConfig t2 user true
              (record_login_attempt defaultRateLimiterConfig t1 user true
                st)))))).1 =
      ⟨false, some (tooManyMessage (900 - (now - t1))),
       some (900 - (now - t1))⟩ ∧
    0 < 900 - (now - t1) := by
  have hatt : (record_login_attempt defaultRateLimiterConfig t5 user true
      (record_login_attempt defaultRateLimiterConfig t4 user true
        (record_login_attempt defaultRateLimiterConfig t3 user true
          (record_login_attempt defaultRateLimiterConfig t2 user true
            (record_login_attempt defaultRateLimiterConfig t1 user true
              st))))).loginAttempts user = [t1, t2, t3, t4, t5] := by
    simp [record_login_attempt, hfresh]
  have hlock : (record_login_attempt defaultRateLimiterConfig t5 user true
      (record_login_attempt defaultRateLimiterConfig t4 user true
        (record_login_attempt defaultRateLimiterConfig t3 user true
          (record_login_attempt defaultRateLimiterConfig t2 user true
            (record_login_attempt defaultRateLimiterConfig t1 user true
              st))))).lockouts user = none := by
    simp [record_login_attempt]
  have hfa : (record_login_attempt defaultRateLimiterConfig t5 user true
      (record_login_attempt defaultRateLimiterConfig t4 user true
        (record_login_attempt defaultRateLimiterConfig t3 user true
          (record_login_attempt defaultRateLimiterConfig t2 user true
            (record_login_attempt defaultRateLimiterConfig t1 user true
              st))))).failedAttempts user = 0 := by
    simp [record_login_attempt]
  refine ⟨hfa, hlock, ?_, by omega⟩
  simp only [check_login_rate_limit, hlock]
  unfold check_login_window
  dsimp only []
  rw [hatt]
  have hw : ((defaultRateLimiterConfig.loginWindowMinutes : Nat) : Int) * 60 = 900 := by
    norm_num [defaultRateLimiterConfig]
  simp only [hw]
  have hnd : ¬ (decide (t1 < now - 900) = true) := by
    simp only [decide_eq_true_eq]
    omega
  rw [List.dropWhile_cons, if_neg hnd]
  have hval : defaultRateLimiterConfig.loginAttemptsPerWindow ≤
      ([t1, t2, t3, t4, t5] : List Int).length := by
    simp [defaultRateLimiterConfig]
  rw [if_pos hval]
  simp [List.headD]

/-- C10 witness: five successes at times 1..5 on a fresh state, checked at
time 5. -/
theorem C10_successes_fill_window_witness :
    ((record_login_attempt defaultRateLimiterConfig 5 ("a@b.c") true
      (record_login_attempt defaultRateLimiterConfig 4 ("a@b.c") true
        (record_login_attempt defaultRateLimiterConfig 3 ("a@b.c") true
          (record_login_attempt defaultRateLimiterConfig 2 ("a@b.c") true
            (record_login_attempt defaultRateLimiterConfig 1 ("a@b.c") true
              ⟨fun _ => [], fun _ => [], fun _ => 0,
               fun _ => none⟩))))).failedAttempts ("a@b.c") = 0) ∧
    ((record_login_attempt defaultRateLimiterConfig 5 ("a@b.c") true
      (record_login_attempt defaultRateLimiterConfig 4 ("a@b.c") true
        (record_login_attempt defaultRateLimiterConfig 3 ("a@b.c") true
          (record_login_attempt defaultRateLimiterConfig 2 ("a@b.c") true
            (record_login_attempt defaultRateLimiterConfig 1 ("a@b.c") true
              ⟨fun _ => [], fun _ => [], fun _ => 0,
               fun _ => none⟩))))).lockouts ("a@b.c") = none) ∧
    (check_login_rate_limit defaultRateLimiterConfig 5 ("a@b.c")
      (record_login_attempt defaultRateLimiterConfig 5 ("a@b.c") true
        (record_login_attempt defaultRateLimiterConfig 4 ("a@b.c") true
          (record_login_attempt defaultRateLimiterConfig 3 ("a@b.c") true
            (record_login_attempt defaultRateLimiterConfig 2 ("a@b.c") true
              (record_login_attempt defaultRateLimiterConfig 1 ("a@b.c") true
                ⟨fun _ => [], fun _ => [], fun _ => 0,
                 fun _ => none⟩)))))).1 =
      ⟨false, some (tooManyMessage (900 - ((5 : Int) - 1))),
       some (900 - ((5 : Int) - 1))⟩ ∧
    0 < 900 - ((5 : Int) - 1) :=
  C10_successes_fill_window ("a@b.c")
    ⟨fun _ => [], fun _ => [], fun _ => 0, fun _ => none⟩
    1 2 3 4 5 5 rfl (by norm_num) (by norm_num) (by norm_num) (by norm_num)
    (by norm_num) (by norm_num)


/- ---------------------------------------------------------------------
C9
--------------------------------------------------------------------- -/

/-- The recorded hash is always a member of the post-recording history when
the bound is positive: the FIFO pop removes from the front, never the freshly
appended entry. -/
theorem add_to_password_history_mem (st : PasswordHistoryState)
    (user passwordHash : String) (hcount : 0 < st.historyCount) :
    passwordHash ∈
      (add_to_password_history st user passwordHash).history user := by
  unfold add_to_password_history
  dsimp only []
  rw [mapUpd_same]
  split
  · rename_i hgt
    cases hh : st.history user with
    | nil =>
      rw [hh] at hgt
      simp at hgt
      omega
    | cons a rest =>
      simp
  · simp

/-- C9: with a positive history bound, recording the hash of a password makes
`check_password_history` reject that password (return false); a password that
verifies against none of the stored hashes passes; and the history is a
bounded FIFO: when it held at most `history_count` entries it still does
after recording, the recorded hash sitting at the end (most recent last). -/
theorem C9_password_history (st : PasswordHistoryState) (user p q : String)
    (hcount : 0 < st.historyCount) :
    (check_password_history
      (add_to_password_history st user (hash_password p)) user p = false) ∧
    ((∀ h ∈ st.history user, verify_password q h = false) →
      check_password_history st user q = true) ∧
    ((st.history user).length ≤ st.historyCount →
      ∃ l, (add_to_password_history st user
              (hash_password p)).history user = l ++ [hash_password p] ∧
        (l ++ [hash_password p]).length ≤ st.historyCount) := by
  refine ⟨?_, ?_, ?_⟩
  · unfold check_password_history
    rw [List.all_eq_false]
    refine ⟨hash_password p,
      add_to_password_history_mem st user (hash_password p) hcount, ?_⟩
    simp [verify_password]
  · intro hnone
    unfold check_password_history
    rw [List.all_eq_true]
    intro h hmem
    rw [hnone h hmem]
    rfl
  · intro hlen
    unfold add_to_password_history
    dsimp only []
    rw [mapUpd_same]
    split
    · rename_i hgt
      cases hh : st.history user with
      | nil =>
        rw [hh] at hgt
        simp at hgt
        omega
      | cons a rest =>
        rw [hh] at hlen
        refine ⟨rest, by simp, ?_⟩
        simp only [List.length_append, List.length_cons, List.length_nil]
          at hlen ⊢
        omega
    · rename_i hle
      refine ⟨st.history user, rfl, ?_⟩
      simp only [not_lt, List.length_append, List.length_cons,
        List.length_nil] at hle
      simpa using hle

/-- C9 witness: recording P1 on a fresh service with bound 5 makes the
history check reject P1. -/
theorem C9_password_history_witness :
    (0 : Nat) < 5 ∧
    check_password_history
      (add_to_password_history ⟨fun _ => [], 5⟩ ("u@x.com")
        (hash_password ("P1"))) ("u@x.com") ("P1") = false :=
  ⟨by norm_num,
   (C9_password_history ⟨fun _ => [], 5⟩ ("u@x.com") ("P1") ("other")
     (by norm_num)).1⟩

/- ---------------------------------------------------------------------
C6
--------------------------------------------------------------------- -/

/-- C6: verifying the access half of a freshly created token pair with
expected type access succeeds — before the access expiry and with the fresh
`jti` not blacklisted — and the returned claims carry subject = email. -/
theorem C6_token_round_trip (st : JWTManagerState) (now : Int)
    (email : String) (name : Option String)
    (hfresh : st.blacklist.contains (mkJti st.nonce) = false)
    (hexp : 0 < st.accessExpireMinutes) :
    verify_token (create_token_pair st now email name).2 now
      (create_token_pair st now email name).1.1 ("access") =
      some (create_token_pair st now email name).1.1.payload ∧
    (create_token_pair st now email name).1.1.payload.sub = email := by
  have h2 : ¬ (now + (st.accessExpireMinutes : Int) * 60 ≤ now) := by omega
  have hfresh2 : mkJti st.nonce ∉ st.blacklist := by simpa using hfresh
  constructor
  · simp [create_token_pair, create_access_token, create_refresh_token,
      verify_token, jwt_decode, h2, hfresh2]
  · rfl

/-- C6 witness: the round trip on a concrete manager state with an empty
blacklist and the default 240-minute access expiry. -/
theorem C6_token_round_trip_witness :
    verify_token
      (create_token_pair ⟨"sec", "Oneverter", 240, 30, [], 0⟩ 0 ("a@b.c")
        none).2 0
      (create_token_pair ⟨"sec", "Oneverter", 240, 30, [], 0⟩ 0 ("a@b.c")
        none).1.1 ("access") =
      some (create_token_pair ⟨"sec", "Oneverter", 240, 30, [], 0⟩ 0 ("a@b.c")
        none).1.1.payload ∧
    (create_token_pair ⟨"sec", "Oneverter", 240, 30, [], 0⟩ 0 ("a@b.c")
      none).1.1.payload.sub = "a@b.c" :=
  C6_token_round_trip ⟨"sec", "Oneverter", 240, 30, [], 0⟩ 0 ("a@b.c") none
    (by decide) (by norm_num)

/- ---------------------------------------------------------------------
C7
--------------------------------------------------------------------- -/

/-- A successful `jwt.decode` implies the token was signed with the
manager's secret and the returned claims are the token's payload. -/
theorem jwt_decode_some (secret issuer : String) (now : Int) (tok : JWTToken)
    (ve vi : Bool) (p : JWTPayload)
    (h : jwt_decode secret issuer now tok ve vi = some p) :
    tok.signedWith = secret ∧ p = tok.payload := by
  unfold jwt_decode at h
  split at h
  · exact absurd h (by simp)
  · split at h
    · exact absurd h (by simp)
    · split at h
      · exact absurd h (by simp)
      · rename_i h1 _ _
        refine ⟨not_not.mp h1, ?_⟩
        injection h with h
        exact h.symm

/-- `blacklist_token` changes neither the signing secret nor the issuer. -/
theorem blacklist_token_fields (st : JWTManagerState) (now : Int)
    (tok : JWTToken) :
    (blacklist_token st now tok).secret = st.secret ∧
    (blacklist_token st now tok).issuer = st.issuer := by
  unfold blacklist_token
  repeat' split
  all_goals exact ⟨rfl, rfl⟩

/-- A token signed with the manager's secret and carrying a truthy `jti` is
in the blacklist after `blacklist_token`. -/
theorem blacklist_token_mem (st : JWTManagerState) (now : Int)
    (tok : JWTToken) (hsig : tok.signedWith = st.secret)
    (hjti : tok.payload.jti ≠ "") :
    (blacklist_token st now tok).blacklist.contains tok.payload.jti = true := by
  have hdec : jwt_decode st.secret st.issuer now tok false false =
      some tok.payload := by
    unfold jwt_decode
    rw [if_neg (by simp [hsig])]
    simp
  unfold blacklist_token
  rw [hdec]
  dsimp only []
  rw [if_pos hjti]
  split
  · rename_i hcont
    exact hcont
  · simp

/-- `blacklist_token` never removes a blacklist entry. -/
theorem blacklist_token_mono (st : JWTManagerState) (now : Int)
    (tok : JWTToken) (x : String) (h : st.blacklist.contains x = true) :
    (blacklist_token st now tok).blacklist.contains x = true := by
  unfold blacklist_token
  repeat' split
  all_goals try exact h
  simp at h ⊢
  exact Or.inl h

/-- Iterated re-blacklisting preserves the signing secret. -/
theorem blacklist_iter_secret (now : Int) (tok : JWTToken)
    (st : JWTManagerState) (n : Nat) :
    (blacklist_iter now tok st n).secret = st.secret := by
  induction n with
  | zero => rfl
  | succ n ih =>
    unfold blacklist_iter
    rw [(blacklist_token_fields (blacklist_iter now tok st n) now tok).1, ih]

/-- Iterated re-blacklisting preserves blacklist membership. -/
theorem blacklist_iter_mono (now : Int) (tok : JWTToken)
    (st : JWTManagerState) (x : String) (n : Nat)
    (h : st.blacklist.contains x = true) :
    (blacklist_iter now tok st n).blacklist.contains x = true := by
  induction n with
  | zero => exact h
  | succ n ih =>
    unfold blacklist_iter
    exact blacklist_token_mono _ now tok x ih

/-- `verify_token` returns none whenever the token it is given would be in
the blacklist if its signature were valid: every decode path either fails
outright or reaches the blacklist check and is rejected. -/
theorem verify_token_none_of_blacklisted (st : JWTManagerState) (now : Int)
    (tok : JWTToken) (tokenType : String)
    (hb : tok.signedWith = st.secret →
      st.blacklist.contains tok.payload.jti = true)
    (hjti : tok.payload.jti ≠ "") :
    verify_token st now tok tokenType = none := by
  unfold verify_token
  cases hdec : jwt_decode st.secret st.issuer now tok true true with
  | none => rfl
  | some p =>
    obtain ⟨hsig, hp⟩ := jwt_decode_some st.secret st.issuer now tok
      true true p hdec
    subst hp
    dsimp only []
    split
    · rfl
    · have hc : tok.payload.jti ∈ st.blacklist := by simpa using hb hsig
      simp [hjti, hc]

/-- C7: once a token issued by the service (truthy `jti`) has been
blacklisted, `verify` of that token as type access returns none, no matter
how many further `blacklist` calls follow (revocation is permanent and
idempotent) and no matter when the verification happens. -/
theorem C7_blacklist_permanent (st : JWTManagerState) (now now2 : Int)
    (tok : JWTToken) (n : Nat) (hjti : tok.payload.jti ≠ "") :
    verify_token (blacklist_iter now tok (blacklist_token st now tok) n)
      now2 tok ("access") = none := by
  apply verify_token_none_of_blacklisted _ now2 tok _ _ hjti
  intro hsig
  have hsec : (blacklist_iter now tok (blacklist_token st now tok) n).secret =
      st.secret := by
    rw [blacklist_iter_secret,
      (blacklist_token_fields st now tok).1]
  rw [hsec] at hsig
  exact blacklist_iter_mono now tok _ _ n
    (blacklist_token_mem st now tok hsig hjti)

/-- C7 witness: a concrete issued token, blacklisted once and then once
more, fails verification. -/
theorem C7_blacklist_permanent_witness :
    verify_token
      (blacklist_iter 0 ⟨⟨"a@b.c", none, 0, 100, "Oneverter", "access",
          "jti-0"⟩, "sec"⟩
        (blacklist_token ⟨"sec", "Oneverter", 240, 30, [], 1⟩ 0
          ⟨⟨"a@b.c", none, 0, 100, "Oneverter", "access", "jti-0"⟩, "sec"⟩)
        1) 0
      ⟨⟨"a@b.c", none, 0, 100, "Oneverter", "access", "jti-0"⟩, "sec"⟩
      ("access") = none :=
  C7_blacklist_permanent ⟨"sec", "Oneverter", 240, 30, [], 1⟩ 0 0
    ⟨⟨"a@b.c", none, 0, 100, "Oneverter", "access", "jti-0"⟩, "sec"⟩ 1
    (by decide)

/- ---------------------------------------------------------------------
C5
--------------------------------------------------------------------- -/

/-- A `log_login_failure` call leaves, at the end of the event list, a
login_failure record carrying the given reason in its details. -/
theorem log_login_failure_suffix (now : Int) (userEmail : String)
    (ipAddress userAgent : Option String) (reason : String)
    (a : AuditLoggerState) (h : 0 < a.maxEvents) :
    ∃ pre eid,
      (log_login_failure now userEmail ipAddress userAgent reason a).1.events =
        pre ++ [⟨eid, now, "login_failure", "medium", false, some userEmail,
                 ipAddress, userAgent, [("reason", reason)]⟩] := by
  unfold log_login_failure
  obtain ⟨pre, hp⟩ := log_event_suffix now ("login_failure") ("medium") false
    (some userEmail) ipAddress userAgent [("reason", reason)] a h
  exact ⟨pre, a.nextEventId, hp⟩

/-- C5: two failing login runs from the same state — one with an email that
is not registered, one with a registered email but a wrong password — both
passing validation and the rate gate, return the identical generic
(success, message, tokens) triple, while the distinct failure reason
(user_not_found vs invalid_password) is recorded only in the audit log. -/
theorem C5_login_failure_indistinguishable
    (validateEmail : String → Option String) (now : Int)
    (e1 e2 p1 p2 ne1 ne2 : String) (rm1 rm2 : Bool)
    (ip1 ip2 ua1 ua2 : Option String)
    (st : SecureUserManagerState) (user : UserRecord)
    (hv1 : validateEmail e1 = some ne1)
    (hv2 : validateEmail e2 = some ne2)
    (hr1 : (check_login_rate_limit defaultRateLimiterConfig now ne1
      st.rateLimiter).1.allowed = true)
    (hr2 : (check_login_rate_limit defaultRateLimiterConfig now ne2
      st.rateLimiter).1.allowed = true)
    (hu1 : st.users ne1 = none)
    (hu2 : st.users ne2 = some user)
    (hlock : user.security.accountLocked = false)
    (hpw : verify_password p2 user.passwordHash = false)
    (hmax : 0 < st.audit.maxEvents) :
    (login validateEmail now e1 p1 rm1 ip1 ua1 st).1 =
      ⟨false, "Invalid email or password", none⟩ ∧
    (login validateEmail now e2 p2 rm2 ip2 ua2 st).1 =
      ⟨false, "Invalid email or password", none⟩ ∧
    (∃ pre eid, (login validateEmail now e1 p1 rm1 ip1 ua1 st).2.audit.events =
      pre ++ [⟨eid, now, "login_failure", "medium", false, some ne1, ip1, ua1,
               [("reason", "user_not_found")]⟩]) ∧
    (∃ pre eid, (login validateEmail now e2 p2 rm2 ip2 ua2 st).2.audit.events =
      pre ++ [⟨eid, now, "login_failure", "medium", false, some ne2, ip2, ua2,
               [("reason", "invalid_password")]⟩]) := by
  refine ⟨?_, ?_, ?_, ?_⟩
  · simp [login, hv1, hr1, hu1]
  · simp [login, hv2, hr2, hu2, hlock, hpw]
  · simp only [login, hv1, hr1, hu1]
    simp only [hr1, Bool.not_true, Bool.false_eq_true, if_false, hu1]
    exact log_login_failure_suffix now ne1 ip1 ua1 ("user_not_found") st.audit
      hmax
  · simp only [login, hv2]
    simp only [hr2, Bool.not_true, Bool.false_eq_true, if_false, hu2, hlock,
      Bool.false_and, hpw, Bool.not_false, if_true, if_false]
    refine log_login_failure_suffix now ne2 ip2 ua2 ("invalid_password") _ ?_
    split
    · unfold log_account_locked
      rw [log_event_maxEvents]
      exact hmax
    · exact hmax

/-- C5 witness: a concrete state with one registered user (alice at x dot
com, password right); logging in as the unknown ghost at x dot com and as
alice with the wrong password both return the same generic triple, with the
distinct reasons only in the audit trail. -/
theorem C5_login_failure_indistinguishable_witness :
    (let user0 : UserRecord :=
      ⟨"alice@x.com", hash_password ("right"), ⟨"Alice", 0, false, none, 0⟩,
       ⟨0, 0, false, none⟩⟩
     let st0 : SecureUserManagerState :=
      ⟨fun u => if u = "alice@x.com" then some user0 else none,
       ⟨fun _ => [], fun _ => [], fun _ => 0, fun _ => none⟩,
       ⟨[], 10000, 90, 0⟩, ⟨"sec", "Oneverter", 240, 30, [], 0⟩, [], 0,
       none, none⟩
     (login (fun s => some s) 0 ("ghost@x.com") ("pw") false none none
        st0).1 = ⟨false, "Invalid email or password", none⟩ ∧
     (login (fun s => some s) 0 ("alice@x.com") ("wrong") false none none
        st0).1 = ⟨false, "Invalid email or password", none⟩ ∧
     (∃ pre eid,
       (login (fun s => some s) 0 ("ghost@x.com") ("pw") false none none
          st0).2.audit.events =
         pre ++ [⟨eid, 0, "login_failure", "medium", false,
                  some ("ghost@x.com"), none, none,
                  [("reason", "user_not_found")]⟩]) ∧
     (∃ pre eid,
       (login (fun s => some s) 0 ("alice@x.com") ("wrong") false none none
          st0).2.audit.events =
         pre ++ [⟨eid, 0, "login_failure", "medium", false,
                  some ("alice@x.com"), none, none,
                  [("reason", "invalid_password")]⟩])) :=
  C5_login_failure_indistinguishable (fun s => some s) 0
    ("ghost@x.com") ("alice@x.com") ("pw") ("wrong")
    ("ghost@x.com") ("alice@x.com") false false none none none none
    ⟨fun u => if u = "alice@x.com" then
        some ⟨"alice@x.com", hash_password ("right"),
          ⟨"Alice", 0, false, none, 0⟩, ⟨0, 0, false, none⟩⟩
      else none,
     ⟨fun _ => [], fun _ => [], fun _ => 0, fun _ => none⟩,
     ⟨[], 10000, 90, 0⟩, ⟨"sec", "Oneverter", 240, 30, [], 0⟩, [], 0,
     none, none⟩
    ⟨"alice@x.com", hash_password ("right"), ⟨"Alice", 0, false, none, 0⟩,
     ⟨0, 0, false, none⟩⟩
    rfl rfl (by decide) (by decide) (by decide) (by decide) rfl (by decide)
    (by norm_num)

/- ---------------------------------------------------------------------
C8
--------------------------------------------------------------------- -/

/-- C8: creating M + 1 = 6 sessions for one identity (default limit M = 5)
at strictly increasing times leaves exactly 5 active sessions: the 6th
creation first evicts the least-recently-active session (the first one,
last active at time 1), marking it inactive with reason
session_limit_exceeded, and all later sessions stay active. -/
theorem C8_session_eviction (email : String) (name : Option String)
    (st0 : SessionManagerState)
    (hs : st0.sessions = [])
    (hm : st0.maxSessionsPerUser = 5)
    (hn : st0.sessionNonce = 0) :
    (get_user_sessions
      (create_session 6 email name false none none
        (create_session 5 email name false none none
          (create_session 4 email name false none none
            (create_session 3 email name false none none
              (create_session 2 email name false none none
                (create_session 1 email name false none none
                  st0).2).2).2).2).2).2 email true).length = 5 ∧
    ((create_session 6 email name false none none
        (create_session 5 email name false none none
          (create_session 4 email name false none none
            (create_session 3 email name false none none
              (create_session 2 email name false none none
                (create_session 1 email name false none none
                  st0).2).2).2).2).2).2.sessions.map
      (fun p => (p.1, p.2.isActive))) =
      [(mkSessionId 0, false), (mkSessionId 1, true), (mkSessionId 2, true),
       (mkSessionId 3, true), (mkSessionId 4, true), (mkSessionId 5, true)] ∧
    ((dictGet (create_session 6 email name false none none
        (create_session 5 email name false none none
          (create_session 4 email name false none none
            (create_session 3 email name false none none
              (create_session 2 email name false none none
                (create_session 1 email name false none none
                  st0).2).2).2).2).2).2.sessions (mkSessionId 0)).map
      (fun s => (s.invalidationReason, s.lastActivity))) =
      some (some ("session_limit_exceeded"), 1) := by
  have b01 : (mkSessionId 0 == mkSessionId 1) = false := by decide
  have b02 : (mkSessionId 0 == mkSessionId 2) = false := by decide
  have b12 : (mkSessionId 1 == mkSessionId 2) = false := by decide
  have b03 : (mkSessionId 0 == mkSessionId 3) = false := by decide
  have b13 : (mkSessionId 1 == mkSessionId 3) = false := by decide
  have b23 : (mkSessionId 2 == mkSessionId 3) = false := by decide
  have b04 : (mkSessionId 0 == mkSessionId 4) = false := by decide
  have b14 : (mkSessionId 1 == mkSessionId 4) = false := by decide
  have b24 : (mkSessionId 2 == mkSessionId 4) = false := by decide
  have b34 : (mkSessionId 3 == mkSessionId 4) = false := by decide
  have b05 : (mkSessionId 0 == mkSessionId 5) = false := by decide
  have b15 : (mkSessionId 1 == mkSessionId 5) = false := by decide
  have b25 : (mkSessionId 2 == mkSessionId 5) = false := by decide
  have b35 : (mkSessionId 3 == mkSessionId 5) = false := by decide
  have b45 : (mkSessionId 4 == mkSessionId 5) = false := by decide
  have n10 : mkSessionId 1 ≠ mkSessionId 0 := by decide
  have n20 : mkSessionId 2 ≠ mkSessionId 0 := by decide
  have n30 : mkSessionId 3 ≠ mkSessionId 0 := by decide
  have n40 : mkSessionId 4 ≠ mkSessionId 0 := by decide
  have brs : (("session_limit_exceeded" : String) == "user_logout") = false :=
    by decide
  refine ⟨?_, ?_, ?_⟩ <;>
    simp [create_session, enforce_session_limit, get_user_sessions,
      invalidate_session, dictGet, dictSet, sortListBy, insertSortedBy,
      hs, hm, hn, b01, b02, b12, b03, b13, b23, b04, b14, b24, b34, b05,
      b15, b25, b35, b45, n10, n20, n30, n40, brs]

/-- C8 witness: the 6-creation run on a fully concrete fresh session-manager
state. -/
theorem C8_session_eviction_witness :
    (get_user_sessions
      (create_session 6 ("alice@x.com") none false none none
        (create_session 5 ("alice@x.com") none false none none
          (create_session 4 ("alice@x.com") none false none none
            (create_session 3 ("alice@x.com") none false none none
              (create_session 2 ("alice@x.com") none false none none
                (create_session 1 ("alice@x.com") none false none none
                  ⟨240, 30, 5, ⟨"sec", "Oneverter", 240, 30, [], 0⟩,
                   ⟨[], 10000, 90, 0⟩, [],
                   0⟩).2).2).2).2).2).2 ("alice@x.com") true).length = 5 ∧
    ((create_session 6 ("alice@x.com") none false none none
        (create_session 5 ("alice@x.com") none false none none
          (create_session 4 ("alice@x.com") none false none none
            (create_session 3 ("alice@x.com") none false none none
              (create_session 2 ("alice@x.com") none false none none
                (create_session 1 ("alice@x.com") none false none none
                  ⟨240, 30, 5, ⟨"sec", "Oneverter", 240, 30, [], 0⟩,
                   ⟨[], 10000, 90, 0⟩, [],
                   0⟩).2).2).2).2).2).2.sessions.map
      (fun p => (p.1, p.2.isActive))) =
      [(mkSessionId 0, false), (mkSessionId 1, true), (mkSessionId 2, true),
       (mkSessionId 3, true), (mkSessionId 4, true), (mkSessionId 5, true)] ∧
    ((dictGet (create_session 6 ("alice@x.com") none false none none
        (create_session 5 ("alice@x.com") none false none none
          (create_session 4 ("alice@x.com") none false none none
            (create_session 3 ("alice@x.com") none false none none
              (create_session 2 ("alice@x.com") none false none none
                (create_session 1 ("alice@x.com") none false none none
                  ⟨240, 30, 5, ⟨"sec", "Oneverter", 240, 30, [], 0⟩,
                   ⟨[], 10000, 90, 0⟩, [],
                   0⟩).2).2).2).2).2).2.sessions (mkSessionId 0)).map
      (fun s => (s.invalidationReason, s.lastActivity))) =
      some (some ("session_limit_exceeded"), 1) :=
  C8_session_eviction ("alice@x.com") none
    ⟨240, 30, 5, ⟨"sec", "Oneverter", 240, 30, [], 0⟩, ⟨[], 10000, 90, 0⟩,
     [], 0⟩ rfl rfl rfl
